import Mathlib

/-!
Shallow embedding of the `bup` GUI application (a desktop tool for
configuring backup targets), translated from `src/src/main.rs`,
`src/src/editor.rs` and `src/src/path.rs`.

Modelling conventions:
* `Uuid` is embedded as `Nat`, `PathBuf` as `String`, `Duration` as `Nat`.
* `iced` widget states (`button::State`, `text_input::State`, ...) carry no
  application data and are embedded as `Unit`; the `FilePicker` widget from
  `path.rs` has a `path` field and is embedded as a structure.
* Rust code that can panic (`unwrap`, `Vec` indexing, `Vec::remove`,
  `unreachable!`, `panic!`) is embedded as an `Option`-returning function,
  `none` standing for a panic.
* External collaborators (filesystem, JSON codec, argon2 hashing, the
  rdedup repository library, fresh UUID generation) are abstracted as
  parameters collected in an `Env` structure / explicit function arguments.
-/

namespace Bup

/-- `DuplicationKind` from `main.rs` (mod config). -/
inductive DuplicationKind
  | Disk (path : String)
  deriving DecidableEq, Repr

/-- `Duplication` from `main.rs` (mod config). -/
structure Duplication where
  interval : Nat
  kind : DuplicationKind
  deriving DecidableEq, Repr

/-- `Target` from `main.rs` (mod config): a named backup job. -/
structure Target where
  repo : Nat
  name : String
  /-- Paths to include in the backup -/
  sources : List (Option String)
  /-- Exclude pattern sent to `tar` via `--exclude` -/
  excludes : List String
  duplication : List Duplication
  deriving DecidableEq, Repr

/-- `RepoConfig` from `main.rs` (mod config). -/
structure RepoConfig where
  id : Nat
  name : String
  home : String
  targets : List Target
  deriving DecidableEq, Repr

/-- `Opt<T>` from `main.rs`: a display-name/value pair. -/
structure Opt (α : Type) where
  name : String
  value : α
  deriving DecidableEq, Repr

/-- `RepoOption` from `main.rs`. -/
inductive RepoOption
  | New
  | Select (id : Nat)
  deriving DecidableEq, Repr

/-- `RepoOption::id`. -/
def RepoOption.id : RepoOption → Option Nat
  | RepoOption.New => none
  | RepoOption.Select id => some id

/-- `Config` from `main.rs` (mod config). The `IndexMap<Uuid, RepoConfig>`
    is embedded as an insertion-ordered association list. -/
structure Config where
  repos : List (Nat × RepoConfig)
  selected_repo : Option (Opt RepoOption)
  passphrase_hash : Option String
  deriving DecidableEq, Repr

/-- `IndexMap::get`: first entry with the given key. -/
def alistGet (repos : List (Nat × RepoConfig)) (id : Nat) : Option RepoConfig :=
  (repos.find? (fun p => p.1 = id)).map (fun p => p.2)

/-- `IndexMap::get_mut` followed by a mutation `f`: rewrite the first entry
    with the given key, leave everything else untouched. -/
def alistReplace (id : Nat) (f : RepoConfig → RepoConfig) :
    List (Nat × RepoConfig) → List (Nat × RepoConfig)
  | [] => []
  | p :: ps => if p.1 = id then (p.1, f p.2) :: ps else p :: alistReplace id f ps

/-- `IndexMap::insert`: replace in place when the key is present, append
    otherwise. -/
def alistInsert (repos : List (Nat × RepoConfig)) (id : Nat) (rc : RepoConfig) :
    List (Nat × RepoConfig) :=
  if (alistGet repos id).isSome then alistReplace id (fun _ => rc) repos
  else repos ++ [(id, rc)]

/-- `Config::find_repo`. -/
def Config.find_repo (c : Config) (id : Nat) : Option RepoConfig :=
  alistGet c.repos id

/-- `Config::selected_repo` (the method, not the field). -/
def Config.selectedRepo (c : Config) : Option RepoConfig :=
  c.selected_repo.bind (fun sel => sel.value.id.bind (fun id => alistGet c.repos id))

/-- `Config::selected_repo_mut` followed by a mutation `f`; `none` when the
    `Option<&mut RepoConfig>` would be `None` (so a caller's `unwrap` panics). -/
def Config.modifySelected (c : Config) (f : RepoConfig → RepoConfig) : Option Config :=
  match c.selected_repo with
  | none => none
  | some sel =>
    match sel.value.id with
    | none => none
    | some id =>
      if (alistGet c.repos id).isSome then
        some { c with repos := alistReplace id f c.repos }
      else none

/-- `Default` for `Config` (all fields empty, as derived in Rust). -/
def defaultConfig : Config :=
  { repos := [], selected_repo := none, passphrase_hash := none }

/-- `verify_target` from `main.rs:879`: the validation predicate run before a
    Target is saved. -/
def verify_target (target : Target) : Except String Unit :=
  if target.name.isEmpty then
    Except.error "Name should not be empty"
  else if target.sources.isEmpty then
    Except.error "Should have at least one source"
  else if target.sources.any (fun source => source.isNone) then
    Except.error "All sources should have a path"
  else if target.excludes.any (fun exclude => exclude.isEmpty) then
    Except.error "No exclude should be empty"
  else
    Except.ok ()

/-! ### File picker (`src/src/path.rs`) -/

/-- `path::Message` from `path.rs`. -/
inductive PathMessage
  | Error (msg : String)
  | Path (path : String)
  | SelectPath
  deriving DecidableEq, Repr

/-- `FilePicker` from `path.rs`; the `button::State` field carries no data. -/
structure FilePicker where
  path : Option String
  deriving DecidableEq, Repr

/-- `FilePicker::new` (`Default`). -/
def FilePicker.new : FilePicker := { path := none }

/-- `FilePicker::update`. `SelectPath` only spawns the native dialog (an
    external effect); `Path` records the chosen path; `Error` leaves the
    previously set path unchanged. -/
def FilePicker.update (self : FilePicker) (msg : PathMessage) : FilePicker :=
  match msg with
  | PathMessage.Path path => { self with path := some path }
  | _ => self

/-! ### Target editor (`src/src/editor.rs`) -/

/-- `EditorMessage` from `editor.rs`. -/
inductive EditorMessage
  | SetName (name : String)
  | NewSource
  | Source (i : Nat) (msg : PathMessage)
  | DelSource (i : Nat)
  | NewExclude
  | SetExclude (i : Nat) (exclude : String)
  | DelExclude (i : Nat)
  | Save
  | Cancel
  deriving DecidableEq, Repr

/-- `Editor` from `editor.rs` (used as `TargetEditor` in `main.rs`). The
    `text_input::State` / `button::State` vectors carry no application data
    and are embedded as `List Unit`; only their lengths matter. -/
structure Editor where
  target : Target
  error : Option String
  s_exclude : List Unit
  s_delete_exclude_button : List Unit
  s_source : List FilePicker
  s_delete_source_button : List Unit
  deriving DecidableEq, Repr

/-- `Default` for `Editor`. -/
def Editor.default : Editor :=
  { target := { repo := 0, name := "", sources := [], excludes := [], duplication := [] },
    error := none, s_exclude := [], s_delete_exclude_button := [],
    s_source := [], s_delete_source_button := [] }

/-- `Editor::with_target` from `editor.rs:42`. -/
def Editor.with_target (target : Target) : Editor :=
  { s_exclude := List.replicate target.excludes.length (),
    s_delete_exclude_button := List.replicate target.excludes.length (),
    s_source := List.replicate target.sources.length FilePicker.new,
    s_delete_source_button := List.replicate target.sources.length (),
    target := target,
    error := none }

/-- Modelled from the spec: `TargetEditor::new_target` is called from
    `main.rs:236` but its definition is not among the provided sources
    (`main.rs` declares `mod target_editor`, of which only `editor.rs` is
    present, without `new_target`). The spec says: "entering `CreateTarget`
    starts from an empty target bound to the currently selected repository's
    identifier". -/
def Editor.new_target (repo_id : Nat) : Editor :=
  { Editor.default with
    target := { Editor.default.target with repo := repo_id } }

/-- `Editor::update` from `editor.rs:203`. Returned `Command`s are external
    effects and are dropped; `none` models a panic (out-of-bounds `Vec`
    indexing or `Vec::remove`). -/
def Editor.update (self : Editor) (message : EditorMessage) : Option Editor :=
  match message with
  | EditorMessage.SetName name =>
    some { self with target := { self.target with name := name } }
  | EditorMessage.NewSource =>
    some { self with
      target := { self.target with sources := self.target.sources ++ [none] },
      s_delete_source_button := self.s_delete_source_button ++ [()],
      s_source := self.s_source ++ [FilePicker.new] }
  | EditorMessage.Source i msg =>
    let step1 : Option Editor :=
      match msg with
      | PathMessage.Path path =>
        if i < self.target.sources.length then
          some { self with
            target := { self.target with
              sources := self.target.sources.set i (some path) } }
        else none
      | _ => some self
    step1.bind (fun s =>
      match s.s_source.get? i with
      | some picker => some { s with s_source := s.s_source.set i (picker.update msg) }
      | none => none)
  | EditorMessage.DelSource i =>
    if i < self.target.sources.length then
      some { self with
        target := { self.target with sources := self.target.sources.eraseIdx i } }
    else none
  | EditorMessage.NewExclude =>
    some { self with
      target := { self.target with excludes := self.target.excludes ++ [""] },
      s_exclude := self.s_exclude ++ [()],
      s_delete_exclude_button := self.s_delete_exclude_button ++ [()] }
  | EditorMessage.SetExclude i exclude =>
    if i < self.target.excludes.length then
      some { self with
        target := { self.target with excludes := self.target.excludes.set i exclude } }
    else none
  | EditorMessage.DelExclude i =>
    if i < self.target.excludes.length then
      some { self with
        target := { self.target with excludes := self.target.excludes.eraseIdx i } }
    else none
  | EditorMessage.Save =>
    match verify_target self.target with
    | Except.error e => some { self with error := some e }
    | Except.ok _ => some self
  | EditorMessage.Cancel => some self

/-! ### Scene controller and top-level update (`src/src/main.rs`) -/

/-- `ListItemState` from `main.rs:826`; both fields are `button::State`. -/
structure ListItemState where
  s_button : Unit
  s_button2 : Unit
  deriving DecidableEq, Repr

/-- `Default` for `ListItemState`. -/
def ListItemState.default : ListItemState := { s_button := (), s_button2 := () }

/-- `ListItemMessage` from `main.rs:873`. -/
inductive ListItemMessage
  | Expand
  | Edit
  deriving DecidableEq, Repr

/-- `Scene` from `main.rs:174`; widget states that carry no application data
    are omitted, `CreateRepo`'s `s_home : FilePicker` is kept. -/
inductive Scene
  | Initial (passphrase1 : String) (passphrase2 : String) (error : Option String)
  | Overview (list : List ListItemState) (selected_target : Option Nat)
  | CreateTarget (editor : Editor)
  | CreateRepo (name : String) (home : Option String) (error : Option String)
      (s_home : FilePicker)
  | EditTarget (editor : Editor) (target_index : Nat)
  | Settings
  deriving DecidableEq, Repr

/-- `Scene::init`. -/
def Scene.init : Scene := Scene.Initial "" "" none

/-- `Scene::overview` from `main.rs:223`. Note the Rust code computes
    `n_targets` from the selected repo but then builds `list: Vec::new()`;
    the binding is kept here, unused, as in the source. -/
def Scene.overview (config : Config) : Scene :=
  let _n_targets := (config.selectedRepo.map (fun repo => repo.targets.length)).getD 0
  Scene.Overview [] none

/-- `Scene::create_target` from `main.rs:234`. -/
def Scene.create_target (repo_id : Nat) : Scene :=
  Scene.CreateTarget (Editor.new_target repo_id)

/-- `Scene::create_repo` from `main.rs:239`. -/
def Scene.create_repo : Scene :=
  Scene.CreateRepo "" none none FilePicker.new

/-- `Scene::edit` from `main.rs:251`. The Rust code unwraps
    `config.selected_repo()` and indexes `targets[target_index]`; `none`
    models the panic when no repo is selected or the index is out of range. -/
def Scene.edit (target_index : Nat) (config : Config) : Option Scene :=
  match config.selectedRepo with
  | none => none
  | some repo =>
    match repo.targets.get? target_index with
    | none => none
    | some target =>
      some (Scene.EditTarget (Editor.with_target target) target_index)

/-- `Scene::settings`. -/
def Scene.settings : Scene := Scene.Settings

/-- `Message` from `main.rs:279`. `Tick`'s `Instant` payload and
    `RepoSaveResult`'s redacted repo handle are irrelevant to state and
    dropped / simplified. -/
inductive Message
  | Tick
  | ToOverview
  | NewTarget
  | EditTarget (index : Nat)
  | ListItem (i : Nat) (msg : ListItemMessage)
  | TargetEditor (msg : EditorMessage)
  | OpenSettings
  | PickRepo (repo : Opt RepoOption)
  | SetPassphrase1 (pass : String)
  | SetPassphrase2 (pass : String)
  | InitialConfirm
  | SetRepoName (name : String)
  | SetRepoHome (home : String)
  | SaveRepo
  | RepoHome (msg : PathMessage)
  | RepoSaveResult (result : Except String Unit)
  deriving Repr

/-- Outcomes of the external collaborators invoked by `Ui::update`:
    argon2 hashing/verification (`hash_passphrase`, `verify_password`),
    `Url::from_directory_path` + `Repo::open` (folded into `open_ok`),
    `init_repo` (`init_ok`, with `init_err` its error text), and
    `Uuid::new_v4` (`fresh_uuid`). -/
structure Env where
  open_ok : Bool
  init_ok : Bool
  init_err : String
  hash_pw : String → String
  verify_pw : String → String → Bool
  fresh_uuid : Nat

/-- `Ui` from `main.rs:265`; the `Option<Repo>` handle is external and kept
    only as its presence bit, the `Logger` and scrollable state are dropped. -/
structure Ui where
  config : Config
  scene : Scene
  passphrase : Option String
  repo_open : Bool

/-- `Ui::new` from `main.rs:329`: `Config::load().context(..).unwrap()`;
    `none` models the panic when loading returns an error. `parse` stands for
    `serde_json::from_str`, `file` for the result of `fs::read_to_string`
    (`none` = read error, e.g. missing file). -/
def Config.load (parse : String → Except String Config) (file : Option String) :
    Except String Config :=
  match file with
  | some contents => parse contents
  | none => Except.ok defaultConfig

/-- `Ui::new` (see `Config.load`). -/
def Ui.new (parse : String → Except String Config) (file : Option String) : Option Ui :=
  match Config.load parse file with
  | Except.ok config =>
    some { config := config, scene := Scene.init, passphrase := none, repo_open := false }
  | Except.error _ => none

/-- `Ui::update` from `main.rs:360`. Returned `Command`s are external effects
    and dropped; `none` models a panic. -/
def Ui.update (env : Env) (self : Ui) (message : Message) : Option Ui :=
  match message with
  | Message.Tick => some self
  | Message.ToOverview => some { self with scene := Scene.overview self.config }
  | Message.NewTarget =>
    match self.config.selected_repo with
    | some sel =>
      match sel.value with
      | RepoOption.Select repo_id =>
        some { self with scene := Scene.create_target repo_id }
      | RepoOption.New => some self
    | none => some self
  | Message.EditTarget index =>
    (Scene.edit index self.config).map (fun sc => { self with scene := sc })
  | Message.ListItem i msg =>
    match msg with
    | ListItemMessage.Edit =>
      (Scene.edit i self.config).map (fun sc => { self with scene := sc })
    | ListItemMessage.Expand =>
      match self.scene with
      | Scene.Overview list selected_target =>
        some { self with scene :=
          (Scene.Overview list (if selected_target.isSome then none else some i)) }
      | _ => none
  | Message.TargetEditor msg =>
    let step1 : Option Ui :=
      match msg with
      | EditorMessage.Save =>
        match self.scene with
        | Scene.CreateTarget editor =>
          (match verify_target editor.target with
           | Except.ok _ =>
             (self.config.modifySelected
               (fun repo => { repo with targets := repo.targets ++ [editor.target] })).map
               (fun cfg => { self with config := cfg, scene := Scene.overview cfg })
           | Except.error e =>
             some { self with scene := Scene.CreateTarget { editor with error := some e } })
        | Scene.EditTarget editor target_index =>
          (match verify_target editor.target with
           | Except.ok _ =>
             match self.config.selectedRepo with
             | none => none
             | some repo =>
               if target_index < repo.targets.length then
                 (self.config.modifySelected
                   (fun repo => { repo with
                     targets := repo.targets.set target_index editor.target })).map
                   (fun cfg => { self with config := cfg, scene := Scene.overview cfg })
               else none
           | Except.error e =>
             some { self with scene :=
               (Scene.EditTarget { editor with error := some e } target_index) })
        | _ => none
      | EditorMessage.Cancel =>
        some { self with scene := Scene.overview self.config }
      | _ => some self
    step1.bind (fun ui1 =>
      match ui1.scene with
      | Scene.CreateTarget editor =>
        (editor.update msg).map (fun ed => { ui1 with scene := Scene.CreateTarget ed })
      | Scene.EditTarget editor target_index =>
        (editor.update msg).map
          (fun ed => { ui1 with scene := Scene.EditTarget ed target_index })
      | _ => some ui1)
  | Message.OpenSettings => some { self with scene := Scene.settings }
  | Message.PickRepo repo =>
    match repo.value with
    | RepoOption.New => some { self with scene := Scene.create_repo }
    | RepoOption.Select id =>
      if (self.config.find_repo id).isSome && env.open_ok then
        some { self with
          repo_open := true,
          config := { self.config with selected_repo := some repo } }
      else
        some self
  | Message.SetPassphrase1 pass =>
    match self.scene with
    | Scene.Initial _ passphrase2 error =>
      some { self with scene := Scene.Initial pass passphrase2 error }
    | _ => some self
  | Message.SetPassphrase2 pass =>
    match self.scene with
    | Scene.Initial passphrase1 _ error =>
      some { self with scene := Scene.Initial passphrase1 pass error }
    | _ => some self
  | Message.InitialConfirm =>
    match self.scene with
    | Scene.Initial passphrase1 passphrase2 _ =>
      match self.config.passphrase_hash with
      | some hash =>
        if env.verify_pw passphrase1 hash then
          some { self with
            passphrase := some passphrase1,
            scene := Scene.overview self.config }
        else
          some { self with scene :=
            (Scene.Initial passphrase1 passphrase2 (some "Wrong passphrase")) }
      | none =>
        if passphrase1 = passphrase2 then
          let cfg := { self.config with
            passphrase_hash := some (env.hash_pw passphrase1) }
          some { self with
            config := cfg,
            passphrase := some passphrase1,
            scene := Scene.overview cfg }
        else
          some { self with scene :=
            (Scene.Initial passphrase1 passphrase2 (some "Passphrases don't match")) }
    | _ => some self
  | Message.SetRepoName new_name =>
    match self.scene with
    | Scene.CreateRepo _ home error s_home =>
      some { self with scene := Scene.CreateRepo new_name home error s_home }
    | _ => some self
  | Message.SetRepoHome new_home =>
    match self.scene with
    | Scene.CreateRepo name _ error s_home =>
      some { self with scene := Scene.CreateRepo name (some new_home) error s_home }
    | _ => some self
  | Message.SaveRepo =>
    match self.scene with
    | Scene.CreateRepo name home _ s_home =>
      if ¬name.isEmpty then
        match home with
        | some h =>
          match self.passphrase with
          | none => none
          | some _ =>
            if env.init_ok then
              let id := env.fresh_uuid
              let cfg := { self.config with
                repos := alistInsert self.config.repos id
                  { id := id, name := name, home := h, targets := [] },
                selected_repo :=
                  (some { name := name, value := RepoOption.Select id }) }
              some { self with
                repo_open := true,
                config := cfg,
                scene := Scene.overview cfg }
            else
              some { self with scene :=
                (Scene.CreateRepo name home (some env.init_err) s_home) }
        | none =>
          some { self with scene :=
            (Scene.CreateRepo name home (some "Home path must be set") s_home) }
      else
        some { self with scene :=
          (Scene.CreateRepo name home (some "Name must be non-empty") s_home) }
    | _ => some self
  | Message.RepoHome msg =>
    match self.scene with
    | Scene.CreateRepo name home error s_home =>
      let home1 :=
        match msg with
        | PathMessage.Path path => some path
        | _ => home
      some { self with scene := Scene.CreateRepo name home1 error (s_home.update msg) }
    | _ => some self
  | Message.RepoSaveResult result =>
    match self.scene with
    | Scene.CreateRepo name home error s_home =>
      match result with
      | Except.ok _ => some { self with scene := Scene.CreateRepo name home error s_home }
      | Except.error e =>
        some { self with scene := Scene.CreateRepo name home (some e) s_home }
    | _ => some self

/-- `zip_list` from `main.rs:966`: `state.resize(data.len(), default)` then
    `zip`; returns the resized state vector and the zipped pairs. -/
def zip_list {α σ : Type} (data : List α) (state : List σ) (default : σ) :
    List σ × List (α × σ) :=
  let state1 := state.take data.length ++
    List.replicate (data.length - state.length) default
  (state1, data.zip state1)

/-- The number of targets of the currently selected repository (the
    `n_targets` computation of `Scene::overview`), zero when none selected. -/
def numTargets (config : Config) : Nat :=
  (config.selectedRepo.map (fun repo => repo.targets.length)).getD 0

/-- The per-row UI-state list of an `Overview` scene, `none` for other
    scenes. -/
def overviewList : Scene → Option (List ListItemState)
  | Scene.Overview list _ => some list
  | _ => none

/-! ## Theorems -/

/-- `Scene::overview` always yields a fresh `Overview` with an empty per-row
    list and nothing selected. -/
theorem Scene.overview_eq (config : Config) :
    Scene.overview config = Scene.Overview [] none := rfl

/-- C1: For every Target, the validation predicate (verify_target) returns
    success if and only if the target's name is non-empty AND its sources
    list is non-empty AND every source slot is Some(path) AND no exclude
    string is empty. -/
theorem C1_verify_target_ok_iff (t : Target) :
    verify_target t = Except.ok () ↔
      (t.name ≠ "" ∧ t.sources ≠ [] ∧ (∀ s ∈ t.sources, s ≠ none) ∧
        ∀ e ∈ t.excludes, e ≠ "") := by
  rw [verify_target]
  split_ifs with h1 h2 h3 h4
  · simp only [String.isEmpty_iff] at h1
    simp [h1]
  · simp only [List.isEmpty_iff] at h2
    simp [h2]
  · simp only [List.any_eq_true, Option.isNone_iff_eq_none] at h3
    obtain ⟨s, hs, hsn⟩ := h3
    subst hsn
    simp only [ne_eq, reduceCtorEq, false_iff, not_and]
    intro _ _ hcon
    exact absurd (hcon none hs) (fun h => h rfl)
  · simp only [List.any_eq_true, String.isEmpty_iff] at h4
    obtain ⟨e, he, hen⟩ := h4
    subst hen
    simp only [ne_eq, reduceCtorEq, false_iff, not_and]
    intro _ _ _ hcon
    exact absurd (hcon "" he) (fun h => h rfl)
  · simp only [String.isEmpty_iff] at h1
    simp only [List.isEmpty_iff] at h2
    simp only [List.any_eq_true, Option.isNone_iff_eq_none, not_exists, not_and] at h3
    simp only [List.any_eq_true, String.isEmpty_iff, not_exists, not_and] at h4
    simp only [true_iff, ne_eq]
    exact ⟨h1, h2, fun s hs => h3 s hs, fun e he => h4 e he⟩

/-- C8: For every Target violating one or more validation rules,
    verify_target returns the error of the first violated rule in the fixed
    order name → sources-nonempty → sources-resolved → excludes-nonempty; in
    particular the all-empty Target fails with the name-empty error. -/
theorem C8_verify_target_first_rule_wins (t : Target) :
    (t.name = "" → verify_target t = Except.error "Name should not be empty") ∧
    (t.name ≠ "" → t.sources = [] →
      verify_target t = Except.error "Should have at least one source") ∧
    (t.name ≠ "" → t.sources ≠ [] → none ∈ t.sources →
      verify_target t = Except.error "All sources should have a path") ∧
    (t.name ≠ "" → t.sources ≠ [] → (∀ s ∈ t.sources, s ≠ none) → "" ∈ t.excludes →
      verify_target t = Except.error "No exclude should be empty") ∧
    verify_target
        { repo := t.repo, name := "", sources := [], excludes := [],
          duplication := t.duplication } =
      Except.error "Name should not be empty" := by
  refine ⟨fun h1 => ?_, fun h1 h2 => ?_, fun h1 h2 h3 => ?_, fun h1 h2 h3 h4 => ?_, rfl⟩
  · rw [verify_target, if_pos (String.isEmpty_iff t.name |>.mpr h1)]
  · rw [verify_target, if_neg, if_pos (List.isEmpty_iff.mpr h2)]
    simp [String.isEmpty_iff, h1]
  · rw [verify_target, if_neg, if_neg, if_pos]
    · simp only [List.any_eq_true, Option.isNone_iff_eq_none]
      exact ⟨none, h3, rfl⟩
    · simp [List.isEmpty_iff, h2]
    · simp [String.isEmpty_iff, h1]
  · rw [verify_target, if_neg, if_neg, if_neg, if_pos]
    · simp only [List.any_eq_true, String.isEmpty_iff]
      exact ⟨"", h4, rfl⟩
    · simp only [List.any_eq_true, Option.isNone_iff_eq_none, not_exists, not_and]
      exact fun s hs => h3 s hs
    · simp [List.isEmpty_iff, h2]
    · simp [String.isEmpty_iff, h1]

/-- Witness for C8 at concrete targets, one per rule. -/
theorem C8_witness :
    verify_target ⟨0, "", [], [], []⟩ = Except.error "Name should not be empty" ∧
    verify_target ⟨0, "a", [], [], []⟩ =
      Except.error "Should have at least one source" ∧
    verify_target ⟨0, "a", [none], [], []⟩ =
      Except.error "All sources should have a path" ∧
    verify_target ⟨0, "a", [some "/p"], [""], []⟩ =
      Except.error "No exclude should be empty" :=
  ⟨(C8_verify_target_first_rule_wins ⟨0, "", [], [], []⟩).1 rfl,
   (C8_verify_target_first_rule_wins ⟨0, "a", [], [], []⟩).2.1 (by decide) rfl,
   (C8_verify_target_first_rule_wins ⟨0, "a", [none], [], []⟩).2.2.1
     (by decide) (by decide) (by decide),
   (C8_verify_target_first_rule_wins ⟨0, "a", [some "/p"], [""], []⟩).2.2.2.1
     (by decide) (by decide) (by decide) (by decide)⟩

/-- A target with one resolved source, used to exhibit the delete-source
    desynchronization. -/
def tgtOneSource : Target :=
  { repo := 0, name := "t", sources := [some "/a"], excludes := [], duplication := [] }

/-- A target with one exclude, used to exhibit the delete-exclude
    desynchronization. -/
def tgtOneExclude : Target :=
  { repo := 0, name := "t", sources := [some "/a"], excludes := ["*.tmp"],
    duplication := [] }

/-- C2 (code evaluated at the failing input): starting from the editor opened
    on a one-source target — whose widget-state vectors are length-synchronized
    by `Editor.with_target` — delivering `DelSource 0` removes the source but
    leaves both source widget-state vectors at length 1; symmetrically,
    `DelExclude 0` on a one-exclude target leaves both exclude widget-state
    vectors at length 1. The lengths are reported as
    (data length, widget-state lengths). -/
theorem C2_delete_leaves_widget_state :
    (Editor.update (Editor.with_target tgtOneSource) (EditorMessage.DelSource 0)).map
        (fun e => (e.target.sources.length, e.s_source.length,
          e.s_delete_source_button.length)) = some (0, 1, 1) ∧
    (Editor.update (Editor.with_target tgtOneExclude) (EditorMessage.DelExclude 0)).map
        (fun e => (e.target.excludes.length, e.s_exclude.length,
          e.s_delete_exclude_button.length)) = some (0, 1, 1) :=
  ⟨rfl, rfl⟩

/-- The environment instance used by concrete witnesses: external hashing is
    the identity, verification is string equality, repo open/init succeed. -/
def env0 : Env :=
  { open_ok := true, init_ok := true, init_err := "io error",
    hash_pw := fun s => s, verify_pw := fun p h => p == h, fresh_uuid := 7 }

/-- An application state with no repository selected, sitting on the
    Overview scene. -/
def uiNoRepo : Ui :=
  { config := defaultConfig, scene := Scene.overview defaultConfig,
    passphrase := some "", repo_open := false }

/-- C3 counterexample: with no repository selected, delivering the
    "edit target" message is not a no-op — it panics (`Scene::edit` unwraps
    `selected_repo()`), modelled by `none`, refuting "the operation does not
    fail". -/
theorem C3_counterexample :
    uiNoRepo.config.selected_repo = none ∧
    Ui.update env0 uiNoRepo (Message.EditTarget 0) = none :=
  ⟨rfl, rfl⟩

/-- C3 (amended): with no repository selected, "new target" is a guarded
    no-op (the whole state, in particular the scene, is unchanged), while
    "edit target" (any index) panics instead of being a no-op. -/
theorem C3_new_target_guarded_edit_target_panics (env : Env) (ui : Ui) (i : Nat)
    (h : ui.config.selected_repo = none) :
    Ui.update env ui Message.NewTarget = some ui ∧
    Ui.update env ui (Message.EditTarget i) = none := by
  constructor
  · simp [Ui.update, h]
  · simp [Ui.update, Scene.edit, Config.selectedRepo, h]

/-- Witness for C3 at a concrete state and index. -/
theorem C3_witness :
    Ui.update env0 uiNoRepo Message.NewTarget = some uiNoRepo ∧
    Ui.update env0 uiNoRepo (Message.EditTarget 3) = none :=
  C3_new_target_guarded_edit_target_panics env0 uiNoRepo 3 rfl

/-- C4: When the editor was opened on an existing target at index `k` of the
    selected repository's target list and Save is delivered with a working
    Target that passes validation, the repository's target list after the
    update equals the prior list with exactly the element at index `k`
    replaced by the working Target (all other targets and all other
    repositories unchanged, the rest of the config unchanged); when Cancel is
    delivered, the config — in particular the target list — is left entirely
    unchanged. -/
theorem C4_save_replaces_index_cancel_preserves (env : Env) (ui : Ui)
    (ed : Editor) (k : Nat) (nm : String) (rid : Nat) (rc : RepoConfig)
    (hscene : ui.scene = Scene.EditTarget ed k)
    (hsel : ui.config.selected_repo =
      some { name := nm, value := RepoOption.Select rid })
    (hget : alistGet ui.config.repos rid = some rc)
    (hk : k < rc.targets.length)
    (hok : verify_target ed.target = Except.ok ()) :
    (Ui.update env ui (Message.TargetEditor EditorMessage.Save) =
      some { ui with
        config := { ui.config with
          repos := alistReplace rid
            (fun r => { r with targets := r.targets.set k ed.target })
            ui.config.repos },
        scene := Scene.Overview [] none }) ∧
    Ui.update env ui (Message.TargetEditor EditorMessage.Cancel) =
      some { ui with scene := Scene.Overview [] none } := by
  have hselrepo : ui.config.selectedRepo = some rc := by
    simp [Config.selectedRepo, hsel, RepoOption.id, hget]
  constructor
  · simp only [Ui.update, hscene, hok, hselrepo, Config.modifySelected, hsel,
      RepoOption.id, hget, Option.isSome_some, if_true, hk, if_pos,
      Option.some_bind, Scene.overview_eq]
    rfl
  · simp only [Ui.update, Option.some_bind, Scene.overview_eq]

/-- Witness data for C4/C5: a repository with two targets. -/
def rcW : RepoConfig :=
  { id := 1, name := "r", home := "/h", targets := [tgtOneSource, tgtOneExclude] }

/-- Witness data for C4/C5: a config whose selected repo is `rcW`. -/
def cfgW : Config :=
  { repos := [(1, rcW)],
    selected_repo := some { name := "r", value := RepoOption.Select 1 },
    passphrase_hash := some "pw" }

/-- The concrete editing session used by the C4 witness. -/
def uiEditW : Ui :=
  { config := cfgW,
    scene := Scene.EditTarget (Editor.with_target tgtOneExclude) 0,
    passphrase := some "pw",
    repo_open := true }

/-- Witness for C4 at a concrete editing session (index 0 of `rcW`). -/
theorem C4_witness :
    (Ui.update env0 uiEditW (Message.TargetEditor EditorMessage.Save) =
      some
        { config :=
            { cfgW with
              repos :=
                (alistReplace 1
                  (fun r =>
                    { r with targets := r.targets.set 0 tgtOneExclude })
                  cfgW.repos) },
          scene := Scene.Overview [] none,
          passphrase := some "pw",
          repo_open := true }) ∧
    Ui.update env0 uiEditW (Message.TargetEditor EditorMessage.Cancel) =
      some
        { config := cfgW,
          scene := Scene.Overview [] none,
          passphrase := some "pw",
          repo_open := true } :=
  C4_save_replaces_index_cancel_preserves env0 uiEditW
    (Editor.with_target tgtOneExclude) 0 "r" 1 rcW rfl rfl rfl (by decide) rfl

/-- C5: Delivering Save while the target editor is open (CreateTarget or
    EditTarget) with a working Target that fails validation does not
    transition the scene: the same editor scene remains active with its
    error field set to the validation message, and the config — in
    particular the repository's target list — is unchanged. -/
theorem C5_save_invalid_keeps_editor_sets_error (env : Env) (ui : Ui)
    (ed : Editor) (k : Nat) (e : String)
    (herr : verify_target ed.target = Except.error e) :
    (ui.scene = Scene.CreateTarget ed →
      Ui.update env ui (Message.TargetEditor EditorMessage.Save) =
        some { ui with scene := Scene.CreateTarget { ed with error := some e } }) ∧
    (ui.scene = Scene.EditTarget ed k →
      Ui.update env ui (Message.TargetEditor EditorMessage.Save) =
        some { ui with scene :=
          (Scene.EditTarget { ed with error := some e } k) }) := by
  constructor
  · intro hscene
    simp only [Ui.update, hscene, herr, Option.some_bind, Editor.update]
    rfl
  · intro hscene
    simp only [Ui.update, hscene, herr, Option.some_bind, Editor.update]
    rfl

/-- An editor holding the all-empty (invalid) target. -/
def edBad : Editor := Editor.with_target ⟨0, "", [], [], []⟩

/-- The C5 witness states: the same invalid editor open in each editor
    scene. -/
def uiCreateBad : Ui :=
  { config := cfgW,
    scene := Scene.CreateTarget edBad,
    passphrase := some "pw",
    repo_open := true }

/-- See `uiCreateBad`. -/
def uiEditBad : Ui :=
  { config := cfgW,
    scene := Scene.EditTarget edBad 1,
    passphrase := some "pw",
    repo_open := true }

/-- Witness for C5: an all-empty target fails validation and Save keeps the
    editor open with the error message, in both editor scenes. -/
theorem C5_witness :
    (Ui.update env0 uiCreateBad (Message.TargetEditor EditorMessage.Save) =
      some
        { config := cfgW,
          scene :=
            (Scene.CreateTarget { edBad with error := some "Name should not be empty" }),
          passphrase := some "pw",
          repo_open := true }) ∧
    Ui.update env0 uiEditBad (Message.TargetEditor EditorMessage.Save) =
      some
        { config := cfgW,
          scene :=
            (Scene.EditTarget { edBad with error := some "Name should not be empty" } 1),
          passphrase := some "pw",
          repo_open := true } :=
  ⟨(C5_save_invalid_keeps_editor_sets_error env0 uiCreateBad edBad 0 _ rfl).1 rfl,
   (C5_save_invalid_keeps_editor_sets_error env0 uiEditBad edBad 1 _ rfl).2 rfl⟩

/-- C6 counterexample: when the config file exists but its contents do not
    parse, `Config::load` propagates the parse error (it does not fall back
    to the default Config), and `Ui::new`'s `unwrap` panics, so startup
    fails. -/
theorem C6_counterexample :
    Config.load (fun _ => Except.error "expected value") (some "garbage") =
      Except.error "expected value" ∧
    Ui.new (fun _ => Except.error "expected value") (some "garbage") = none :=
  ⟨rfl, rfl⟩

/-- C6 (amended): `Config::load` returns the default (empty) Config when the
    file cannot be read (e.g. is missing); when the file is read but its
    contents are unparsable, `load` returns the parse error and `Ui::new`
    unwraps it, failing the application at startup. -/
theorem C6_load_default_on_missing_error_on_unparsable
    (parse : String → Except String Config) (contents e : String)
    (h : parse contents = Except.error e) :
    Config.load parse none = Except.ok defaultConfig ∧
    Config.load parse (some contents) = Except.error e ∧
    Ui.new parse (some contents) = none := by
  refine ⟨rfl, h, ?_⟩
  simp only [Ui.new, Config.load, h]

/-- Witness for C6 at a concrete parse function and file contents. -/
theorem C6_witness :
    Config.load (fun _ => Except.error "eof") none = Except.ok defaultConfig ∧
    Config.load (fun _ => Except.error "eof") (some "not json") = Except.error "eof" ∧
    Ui.new (fun _ => Except.error "eof") (some "not json") = none :=
  C6_load_default_on_missing_error_on_unparsable
    (fun _ => Except.error "eof") "not json" "eof" rfl

/-- A config whose selected repository holds exactly one target. -/
def cfgOneTarget : Config :=
  { repos := [(1, { id := 1, name := "r", home := "/h", targets := [tgtOneSource] })],
    selected_repo := some { name := "r", value := RepoOption.Select 1 },
    passphrase_hash := none }

/-- C7 counterexample: entering Overview on a config whose selected repo has
    one target constructs the per-row list empty (length 0, not 1). -/
theorem C7_counterexample :
    numTargets cfgOneTarget = 1 ∧
    overviewList (Scene.overview cfgOneTarget) = some [] ∧
    ¬(overviewList (Scene.overview cfgOneTarget)).map List.length =
        some (numTargets cfgOneTarget) := by
  refine ⟨rfl, rfl, ?_⟩
  intro h
  simp [Scene.overview, overviewList, numTargets, cfgOneTarget,
    Config.selectedRepo, alistGet, RepoOption.id] at h

/-- C7 (amended): for every Config, entering the Overview scene constructs
    the per-row UI-state list empty (so stale per-row state is never reused:
    it is dropped wholesale), and the list is resized to the current target
    count — with default entries — only at view time, by `zip_list`. -/
theorem C7_overview_empty_then_view_resizes (config : Config)
    (data : List Target) (state : List ListItemState) (d : ListItemState) :
    Scene.overview config = Scene.Overview [] none ∧
    (zip_list data state d).1.length = data.length ∧
    (zip_list data state d).2 = data.zip (zip_list data state d).1 := by
  refine ⟨rfl, ?_, rfl⟩
  simp only [zip_list, List.length_append, List.length_take, List.length_replicate]
  omega

/-- C10: on first run (no stored passphrase hash), confirming with both
    passphrase fields empty is accepted: the empty passphrase is hashed and
    stored, the passphrase is retained, and the scene transitions from
    Initial to Overview — no minimum length or non-emptiness is enforced. -/
theorem C10_empty_passphrase_accepted_on_first_run (env : Env) (ui : Ui)
    (err : Option String)
    (hscene : ui.scene = Scene.Initial "" "" err)
    (hhash : ui.config.passphrase_hash = none) :
    Ui.update env ui Message.InitialConfirm =
      some { ui with
        config := { ui.config with passphrase_hash := some (env.hash_pw "") },
        passphrase := some "",
        scene := Scene.Overview [] none } := by
  simp [Ui.update, hscene, hhash, Scene.overview_eq]

/-- The application state right after a fresh start (default config, Initial
    scene, both passphrase fields empty). -/
def uiFirstRun : Ui :=
  { config := defaultConfig, scene := Scene.Initial "" "" none,
    passphrase := none, repo_open := false }

/-- Witness for C10 at the fresh-start state. -/
theorem C10_witness :
    Ui.update env0 uiFirstRun Message.InitialConfirm =
      some
        { config := { defaultConfig with passphrase_hash := some (env0.hash_pw "") },
          scene := Scene.Overview [] none,
          passphrase := some "",
          repo_open := false } :=
  C10_empty_passphrase_accepted_on_first_run env0 uiFirstRun none rfl rfl

/-! ### The all-targets-valid invariant (C9) -/

/-- Every target stored in a repos association list passes `verify_target`. -/
def ReposOk (repos : List (Nat × RepoConfig)) : Prop :=
  ∀ p ∈ repos, ∀ t ∈ p.2.targets, verify_target t = Except.ok ()

/-- Every target stored anywhere in the Config passes `verify_target`. -/
def TargetsOk (c : Config) : Prop := ReposOk c.repos

/-- One step of the application: some message takes `a` to `b` (for some
    outcome of the external collaborators) without panicking. -/
def UiStep (a b : Ui) : Prop := ∃ env msg, Ui.update env a msg = some b

/-- Reachability under the application's update step relation. -/
def UiReachable : Ui → Ui → Prop := Relation.ReflTransGen UiStep

/-- `alistReplace` preserves `ReposOk` when the mutation preserves
    target-validity. -/
theorem ReposOk_alistReplace {repos : List (Nat × RepoConfig)} {id : Nat}
    {f : RepoConfig → RepoConfig} (hc : ReposOk repos)
    (hf : ∀ rc, (∀ t ∈ rc.targets, verify_target t = Except.ok ()) →
      ∀ t ∈ (f rc).targets, verify_target t = Except.ok ()) :
    ReposOk (alistReplace id f repos) := by
  induction repos with
  | nil => intro p hp; simp [alistReplace] at hp
  | cons q qs ih =>
    intro p hp
    rw [alistReplace] at hp
    by_cases hq : q.1 = id
    · rw [if_pos hq] at hp
      rcases List.mem_cons.mp hp with rfl | h
      · exact hf q.2 (hc q (List.mem_cons_self q qs))
      · exact hc p (List.mem_cons_of_mem q h)
    · rw [if_neg hq] at hp
      rcases List.mem_cons.mp hp with rfl | h
      · exact hc p (List.mem_cons_self p qs)
      · exact ih (fun r hr => hc r (List.mem_cons_of_mem q hr)) p h

/-- `alistInsert` preserves `ReposOk` when the inserted repo's targets are
    all valid. -/
theorem ReposOk_alistInsert {repos : List (Nat × RepoConfig)} {id : Nat}
    {rc : RepoConfig} (hc : ReposOk repos)
    (hrc : ∀ t ∈ rc.targets, verify_target t = Except.ok ()) :
    ReposOk (alistInsert repos id rc) := by
  rw [alistInsert]
  split_ifs with h
  · exact ReposOk_alistReplace hc (fun _ _ => hrc)
  · intro p hp
    rcases List.mem_append.mp hp with h1 | h1
    · exact hc p h1
    · rcases List.mem_singleton.mp h1 with rfl
      exact hrc

/-- The shape of a successful `Config::selected_repo_mut` mutation. -/
theorem modifySelected_eq_some {c : Config} {f : RepoConfig → RepoConfig}
    {c2 : Config} (h : c.modifySelected f = some c2) :
    ∃ id, c2 = { c with repos := alistReplace id f c.repos } := by
  rw [Config.modifySelected] at h
  split at h
  · exact absurd h (by simp)
  · split at h
    · exact absurd h (by simp)
    · split at h
      · exact ⟨_, (Option.some.injEq _ _ |>.mp h).symm⟩
      · exact absurd h (by simp)

/-- A single update step — any message, any external-collaborator outcome —
    preserves validity of all stored targets: the Save path is the only one
    that inserts or replaces a Target, and only after `verify_target`
    succeeds. -/
theorem targetsOk_step {env : Env} {a b : Ui} {msg : Message}
    (hok : TargetsOk a.config) (h : Ui.update env a msg = some b) :
    TargetsOk b.config := by
  cases msg with
  | Tick =>
    simp only [Ui.update, Option.some.injEq] at h
    subst h; exact hok
  | ToOverview =>
    simp only [Ui.update, Option.some.injEq] at h
    subst h; exact hok
  | NewTarget =>
    simp only [Ui.update] at h
    split at h <;> try split at h
    all_goals (simp only [Option.some.injEq] at h; subst h; exact hok)
  | EditTarget index =>
    simp only [Ui.update, Option.map_eq_some'] at h
    obtain ⟨sc, _, rfl⟩ := h
    exact hok
  | ListItem i m =>
    cases m with
    | Edit =>
      simp only [Ui.update, Option.map_eq_some'] at h
      obtain ⟨sc, _, rfl⟩ := h
      exact hok
    | Expand =>
      simp only [Ui.update] at h
      split at h <;>
        first
        | (simp only [Option.some.injEq] at h; subst h; exact hok)
        | simp at h
  | OpenSettings =>
    simp only [Ui.update, Option.some.injEq] at h
    subst h; exact hok
  | PickRepo repo =>
    simp only [Ui.update] at h
    split at h <;> try split at h
    all_goals (simp only [Option.some.injEq] at h; subst h; exact hok)
  | SetPassphrase1 pass =>
    simp only [Ui.update] at h
    split at h
    all_goals (simp only [Option.some.injEq] at h; subst h; exact hok)
  | SetPassphrase2 pass =>
    simp only [Ui.update] at h
    split at h
    all_goals (simp only [Option.some.injEq] at h; subst h; exact hok)
  | InitialConfirm =>
    simp only [Ui.update] at h
    split at h <;> (try split at h) <;> (try split at h)
    all_goals (simp only [Option.some.injEq] at h; subst h; exact hok)
  | SetRepoName name =>
    simp only [Ui.update] at h
    split at h
    all_goals (simp only [Option.some.injEq] at h; subst h; exact hok)
  | SetRepoHome home =>
    simp only [Ui.update] at h
    split at h
    all_goals (simp only [Option.some.injEq] at h; subst h; exact hok)
  | SaveRepo =>
    simp only [Ui.update] at h
    split at h <;> (try split at h) <;> (try split at h) <;> (try split at h) <;>
      (try split at h)
    all_goals
      first
      | (simp only [Option.some.injEq] at h; subst h;
         first
         | exact hok
         | exact ReposOk_alistInsert hok (fun t ht => absurd ht (List.not_mem_nil t)))
      | simp at h
  | RepoHome m =>
    simp only [Ui.update] at h
    split at h
    all_goals (simp only [Option.some.injEq] at h; subst h; exact hok)
  | RepoSaveResult result =>
    simp only [Ui.update] at h
    split at h <;> try split at h
    all_goals (simp only [Option.some.injEq] at h; subst h; exact hok)
  | TargetEditor msg =>
    cases msg with
    | Save =>
      simp only [Ui.update, Option.bind_eq_some] at h
      obtain ⟨ui1, h1, h2⟩ := h
      have hconf2 : TargetsOk ui1.config → TargetsOk b.config := by
        intro hu
        split at h2 <;>
          first
          | (rw [Option.map_eq_some'] at h2; obtain ⟨ed, _, rfl⟩ := h2; exact hu)
          | (simp only [Option.some.injEq] at h2; subst h2; exact hu)
      apply hconf2
      clear hconf2 h2
      split at h1
      · -- Scene.CreateTarget: push the verified target
        split at h1
        · rename_i val heq
          rw [Option.map_eq_some'] at h1
          obtain ⟨cfg, hcfg, rfl⟩ := h1
          obtain ⟨id, rfl⟩ := modifySelected_eq_some hcfg
          refine ReposOk_alistReplace hok ?_
          intro rc hrc t ht
          rcases List.mem_append.mp ht with hmem | hmem
          · exact hrc t hmem
          · rcases List.mem_singleton.mp hmem with rfl
            exact heq
        · simp only [Option.some.injEq] at h1; subst h1; exact hok
      · -- Scene.EditTarget: replace the target at its index
        split at h1
        · rename_i val heq
          split at h1
          · simp at h1
          · split at h1
            · rw [Option.map_eq_some'] at h1
              obtain ⟨cfg, hcfg, rfl⟩ := h1
              obtain ⟨id, rfl⟩ := modifySelected_eq_some hcfg
              refine ReposOk_alistReplace hok ?_
              intro rc hrc t ht
              rcases List.mem_or_eq_of_mem_set ht with hmem | rfl
              · exact hrc t hmem
              · exact heq
            · simp at h1
        · simp only [Option.some.injEq] at h1; subst h1; exact hok
      · simp at h1
    | Cancel =>
      simp only [Ui.update, Scene.overview_eq, Option.some_bind,
        Option.some.injEq] at h
      subst h; exact hok
    | SetName name =>
      simp only [Ui.update, Option.some_bind] at h
      split at h <;>
        first
        | (rw [Option.map_eq_some'] at h; obtain ⟨ed, _, rfl⟩ := h; exact hok)
        | (simp only [Option.some.injEq] at h; subst h; exact hok)
    | NewSource =>
      simp only [Ui.update, Option.some_bind] at h
      split at h <;>
        first
        | (rw [Option.map_eq_some'] at h; obtain ⟨ed, _, rfl⟩ := h; exact hok)
        | (simp only [Option.some.injEq] at h; subst h; exact hok)
    | Source i m =>
      simp only [Ui.update, Option.some_bind] at h
      split at h <;>
        first
        | (rw [Option.map_eq_some'] at h; obtain ⟨ed, _, rfl⟩ := h; exact hok)
        | (simp only [Option.some.injEq] at h; subst h; exact hok)
    | DelSource i =>
      simp only [Ui.update, Option.some_bind] at h
      split at h <;>
        first
        | (rw [Option.map_eq_some'] at h; obtain ⟨ed, _, rfl⟩ := h; exact hok)
        | (simp only [Option.some.injEq] at h; subst h; exact hok)
    | NewExclude =>
      simp only [Ui.update, Option.some_bind] at h
      split at h <;>
        first
        | (rw [Option.map_eq_some'] at h; obtain ⟨ed, _, rfl⟩ := h; exact hok)
        | (simp only [Option.some.injEq] at h; subst h; exact hok)
    | SetExclude i e =>
      simp only [Ui.update, Option.some_bind] at h
      split at h <;>
        first
        | (rw [Option.map_eq_some'] at h; obtain ⟨ed, _, rfl⟩ := h; exact hok)
        | (simp only [Option.some.injEq] at h; subst h; exact hok)
    | DelExclude i =>
      simp only [Ui.update, Option.some_bind] at h
      split at h <;>
        first
        | (rw [Option.map_eq_some'] at h; obtain ⟨ed, _, rfl⟩ := h; exact hok)
        | (simp only [Option.some.injEq] at h; subst h; exact hok)

/-- C9: starting from a Config in which every stored Target satisfies the
    validation predicate, every application state reachable under the
    update step relation also has only valid stored Targets (the Save path,
    the only operation that inserts or replaces a Target, runs only after
    `verify_target` succeeds on the working copy). -/
theorem C9_reachable_states_have_valid_targets (a b : Ui)
    (hok : TargetsOk a.config) (hreach : UiReachable a b) :
    TargetsOk b.config := by
  induction hreach with
  | refl => exact hok
  | tail _ hstep ih =>
    obtain ⟨env, msg, hupd⟩ := hstep
    exact targetsOk_step ih hupd

/-- Witness for C9: the concrete editing state `uiEditW` has only valid
    targets, and after one concrete step (opening the settings scene) the
    resulting state still does. -/
theorem C9_witness :
    TargetsOk ({ uiEditW with scene := Scene.Settings } : Ui).config :=
  C9_reachable_states_have_valid_targets uiEditW
    { uiEditW with scene := Scene.Settings }
    (by
      intro p hp
      simp only [uiEditW, cfgW, rcW, List.mem_singleton] at hp
      subst hp
      intro t ht
      simp only [List.mem_cons, List.mem_singleton, List.not_mem_nil, or_false] at ht
      rcases ht with rfl | rfl <;> rfl)
    (Relation.ReflTransGen.single ⟨env0, Message.OpenSettings, rfl⟩)

end Bup
